import Mathlib

/-!
Verification of the savings-projection core of the Etihad savings dashboard.

The repository's single source file (`app.py`) contains one pure
computation, `calculate_savings`, plus a separate payback-period loop at the
top level of the script.  All arithmetic in the source is over Python
numbers; we embed it over `ℚ`, which realises the exact arithmetic the
source expressions denote.  Year lists `range(1, years + 1)` are embedded as
`List.range' 1 years`; the imperative loops become structural recursions
carrying the mutable locals (`total_savings`, respectively
`payback_year`/`cumulative`) as explicit arguments.
-/

namespace EtihadSavingsDashboard

/-- Input parameter set, as §3 of the spec lays it out.  `trappedFunds` and
`transactionsPerYear` are association lists from entity name to amount,
mirroring the Python dicts (order preserved for display, irrelevant to the
calculation). -/
structure ScenarioParameters where
  transactionFeePercent : ℚ
  trappedFunds : List (String × ℚ)
  annualLossRatePercent : ℚ
  consultingFee : ℚ
  transactionsPerYear : List (String × ℕ)
  horizonYears : ℕ
deriving DecidableEq

/-- Validity ranges for the inputs, exactly the widget-enforced constraints
recorded in §3: fee 0–5 %, non-negative trapped funds, loss rate 0–25 %,
non-negative consulting fee, 1–100 transactions per year, horizon 1–20. -/
def ScenarioParameters.Valid (p : ScenarioParameters) : Prop :=
  0 ≤ p.transactionFeePercent ∧ p.transactionFeePercent ≤ 5 ∧
  (∀ e ∈ p.trappedFunds, 0 ≤ e.2) ∧
  0 ≤ p.annualLossRatePercent ∧ p.annualLossRatePercent ≤ 25 ∧
  0 ≤ p.consultingFee ∧
  (∀ e ∈ p.transactionsPerYear, 1 ≤ e.2 ∧ e.2 ≤ 100) ∧
  1 ≤ p.horizonYears ∧ p.horizonYears ≤ 20

instance (p : ScenarioParameters) : Decidable p.Valid := by
  unfold ScenarioParameters.Valid
  infer_instance

/-- Output record, §3 `SavingsResult`.  `paybackYear = none` is the
source's `payback_year is None`, displayed as "Not within horizon". -/
structure SavingsResult where
  annualTrappedTotal : ℚ
  annualCurrentLoss : ℚ
  annualBlockchainCost : ℚ
  netAnnualSavings : ℚ
  cumulativeSavingsByYear : List ℚ
  paybackYear : Option ℕ
deriving DecidableEq

/-- The `for year in range(1, years + 1)` loop body of `calculate_savings`
(app.py lines 139–146): add `net_annual_savings`, subtract the consulting
fee if the year is 1, append the running total.  The accumulator `t` is the
mutable `total_savings`. -/
def savingsAux (net fee : ℚ) : List ℕ → ℚ → List ℚ
  | [], _ => []
  | y :: ys, t =>
    let t2 := t + net
    let t3 := if y = 1 then t2 - fee else t2
    t3 :: savingsAux net fee ys t3

/-- `calculate_savings` (app.py lines 133–147).  Returns the tuple
`(cumulative_savings, net_annual_savings, annual_current_loss,
annual_blockchain_cost)` in the source's order. -/
def calculate_savings (transaction_fee : ℚ) (trapped_funds : List (String × ℚ))
    (loss_rate consulting_fee : ℚ) (years : ℕ) : List ℚ × ℚ × ℚ × ℚ :=
  let annual_trapped_total := (trapped_funds.map Prod.snd).sum
  let annual_current_loss := annual_trapped_total * (loss_rate / 100)
  let annual_blockchain_cost := annual_trapped_total * (transaction_fee / 100)
  let net_annual_savings := annual_current_loss - annual_blockchain_cost
  let cumulative_savings := savingsAux net_annual_savings consulting_fee (List.range' 1 years) 0
  (cumulative_savings, net_annual_savings, annual_current_loss, annual_blockchain_cost)

/-- The payback loop body (app.py lines 162–170): in year 1 add
`net - consulting_fee / 1_000_000`, otherwise add `net`; record the year the
first time the running total reaches ≥ 0.  The arguments `p` and `c` are
the mutable `payback_year` and `cumulative`. -/
def paybackAux (net fee : ℚ) : List ℕ → Option ℕ → ℚ → Option ℕ
  | [], p, _ => p
  | y :: ys, p, c =>
    let c2 := if y = 1 then c + (net - fee / 1000000) else c + net
    let p2 := if p = none ∧ 0 ≤ c2 then some y else p
    paybackAux net fee ys p2 c2

/-- The full payback computation of app.py lines 162–170 over
`range(1, selected_years + 1)`, starting from `payback_year = None`,
`cumulative = 0`. -/
def payback_year (net fee : ℚ) (years : ℕ) : Option ℕ :=
  paybackAux net fee (List.range' 1 years) none 0

/-- The whole projection as the script performs it (app.py lines 150–170):
call `calculate_savings` on the collected parameters and then run the
separate payback loop on the returned `net_annual_savings`.
`annualTrappedTotal` is the sum `calculate_savings` computes internally. -/
def project (p : ScenarioParameters) : SavingsResult :=
  let r := calculate_savings p.transactionFeePercent p.trappedFunds
    p.annualLossRatePercent p.consultingFee p.horizonYears
  ⟨(p.trappedFunds.map Prod.snd).sum, r.2.2.1, r.2.2.2, r.2.1, r.1,
    payback_year r.2.1 p.consultingFee p.horizonYears⟩

/-- Modelled from the spec: §4.1 step 4 describes the payback rule as "the
first year where the running sum is ≥ 0", where the running sum accumulates
`netAnnualSavings` each year and subtracts `consultingFee / 1,000,000` in
year 1 — so after year `y` it equals `y·net − fee/1,000,000`.  This is the
spec's description of the computation, to be compared with the source's
`payback_year` loop. -/
def paybackSpec (net fee : ℚ) (years : ℕ) : Option ℕ :=
  (List.range' 1 years).find? (fun y : ℕ => decide (0 ≤ (y : ℚ) * net - fee / 1000000))

/-- The "Average Estimate" preset of the source with the default consulting
fee and the default 10-year horizon: trapped funds Bangladesh 1,000,000,
Pakistan 500,000, Others 300,000, loss rate 15 %, fee 2.25 %, consulting
fee 250,000. -/
def averageParams : ScenarioParameters :=
  ⟨9 / 4, [("Bangladesh", 1000000), ("Pakistan", 500000), ("Others", 300000)],
    15, 250000, [("Bangladesh", 12), ("Pakistan", 12), ("Others", 12)], 10⟩

/-- A valid parameter set with negative net savings: loss rate 0, fee 5 %,
no consulting fee, horizon 2.  Net annual savings is −5. -/
def decreasingParams : ScenarioParameters :=
  ⟨5, [("A", 100)], 0, 0, [("A", 12)], 2⟩

/-- A valid parameter set with negative net savings and a positive
consulting fee: loss rate 0, fee 5 %, consulting fee 1000, horizon 3. -/
def lossyParams : ScenarioParameters :=
  ⟨5, [("A", 100)], 0, 1000, [("A", 12)], 3⟩

/-- A valid parameter set whose trapped funds are all zero. -/
def zeroFundsParams : ScenarioParameters :=
  ⟨2, [("A", 0), ("B", 0)], 15, 250000, [("A", 12), ("B", 12)], 5⟩

/-! ### Component lemmas: the fields of `project` -/

theorem project_annualTrappedTotal (p : ScenarioParameters) :
    (project p).annualTrappedTotal = (p.trappedFunds.map Prod.snd).sum := rfl

theorem project_annualCurrentLoss (p : ScenarioParameters) :
    (project p).annualCurrentLoss =
      (p.trappedFunds.map Prod.snd).sum * (p.annualLossRatePercent / 100) := rfl

theorem project_annualBlockchainCost (p : ScenarioParameters) :
    (project p).annualBlockchainCost =
      (p.trappedFunds.map Prod.snd).sum * (p.transactionFeePercent / 100) := rfl

theorem project_netAnnualSavings (p : ScenarioParameters) :
    (project p).netAnnualSavings =
      (p.trappedFunds.map Prod.snd).sum * (p.annualLossRatePercent / 100) -
        (p.trappedFunds.map Prod.snd).sum * (p.transactionFeePercent / 100) := rfl

theorem project_cumulativeSavingsByYear (p : ScenarioParameters) :
    (project p).cumulativeSavingsByYear =
      savingsAux (project p).netAnnualSavings p.consultingFee
        (List.range' 1 p.horizonYears) 0 := rfl

theorem project_paybackYear (p : ScenarioParameters) :
    (project p).paybackYear =
      payback_year (project p).netAnnualSavings p.consultingFee p.horizonYears := rfl

/-! ### Closed form of the cumulative-savings loop -/

theorem savingsAux_of_ne_one (net fee : ℚ) :
    ∀ (ys : List ℕ), (∀ y ∈ ys, y ≠ 1) → ∀ t : ℚ,
      savingsAux net fee ys t =
        (List.range ys.length).map fun k : ℕ => t + ((k : ℚ) + 1) * net := by
  intro ys
  induction ys with
  | nil => intro _ t; simp [savingsAux]
  | cons y ys ih =>
    intro h t
    have hy : y ≠ 1 := h y (List.mem_cons_self y ys)
    have hys : ∀ z ∈ ys, z ≠ 1 := fun z hz => h z (List.mem_cons_of_mem y hz)
    simp only [savingsAux, if_neg hy, List.length_cons]
    rw [ih hys (t + net), List.range_succ_eq_map, List.map_cons, List.map_map]
    congr 1
    · push_cast; ring
    · refine List.map_congr_left fun k _ => ?_
      simp only [Function.comp]
      push_cast
      ring

theorem cumulative_closed (net fee : ℚ) (years : ℕ) :
    savingsAux net fee (List.range' 1 years) 0 =
      (List.range years).map fun k : ℕ => ((k : ℚ) + 1) * net - fee := by
  cases years with
  | zero => simp [savingsAux]
  | succ n =>
    rw [List.range'_succ]
    simp only [savingsAux, if_pos rfl]
    have h2 : ∀ y ∈ List.range' 2 n, y ≠ 1 := by
      intro y hy
      rcases List.mem_range'_1.mp hy with ⟨hy2, _⟩
      omega
    rw [savingsAux_of_ne_one net fee _ h2]
    simp only [List.length_range']
    rw [List.range_succ_eq_map, List.map_cons, List.map_map]
    congr 1
    · push_cast; ring
    · refine List.map_congr_left fun k _ => ?_
      simp only [Function.comp]
      push_cast
      ring

theorem project_cumulative_eq (p : ScenarioParameters) :
    (project p).cumulativeSavingsByYear =
      (List.range p.horizonYears).map
        fun k : ℕ => ((k : ℚ) + 1) * (project p).netAnnualSavings - p.consultingFee := by
  rw [project_cumulativeSavingsByYear, cumulative_closed]

theorem project_cumulative_length (p : ScenarioParameters) :
    (project p).cumulativeSavingsByYear.length = p.horizonYears := by
  rw [project_cumulative_eq]
  simp

theorem project_cumulative_getD (p : ScenarioParameters) (i : ℕ)
    (h : i < p.horizonYears) :
    (project p).cumulativeSavingsByYear.getD i 0 =
      ((i : ℚ) + 1) * (project p).netAnnualSavings - p.consultingFee := by
  rw [project_cumulative_eq, List.getD_eq_getElem?_getD, List.getElem?_map,
    List.getElem?_range h]
  rfl

/-! ### Closed form of the payback loop -/

theorem paybackAux_some (net fee : ℚ) :
    ∀ (ys : List ℕ) (y0 : ℕ) (c : ℚ), paybackAux net fee ys (some y0) c = some y0 := by
  intro ys
  induction ys with
  | nil => intro y0 c; rfl
  | cons y ys ih =>
    intro y0 c
    simp [paybackAux, ih]

theorem paybackAux_none_eq_find? (net fee : ℚ) :
    ∀ (n m : ℕ), 2 ≤ m →
      paybackAux net fee (List.range' m n) none
          (((m : ℚ) - 1) * net - fee / 1000000) =
        (List.range' m n).find?
          (fun y : ℕ => decide (0 ≤ (y : ℚ) * net - fee / 1000000)) := by
  intro n
  induction n with
  | zero => intro m _; rfl
  | succ k ih =>
    intro m hm
    rw [List.range'_succ]
    have hm1 : m ≠ 1 := by omega
    simp only [paybackAux, if_neg hm1, eq_self_iff_true, true_and]
    have hc : ((m : ℚ) - 1) * net - fee / 1000000 + net =
        (m : ℚ) * net - fee / 1000000 := by ring
    rw [hc]
    by_cases h0 : 0 ≤ (m : ℚ) * net - fee / 1000000
    · rw [if_pos h0, paybackAux_some, List.find?_cons_of_pos]
      simpa using h0
    · rw [if_neg h0]
      have harg : (m : ℚ) * net - fee / 1000000 =
          (((m + 1 : ℕ) : ℚ) - 1) * net - fee / 1000000 := by push_cast; ring
      rw [harg, ih (m + 1) (by omega), List.find?_cons_of_neg]
      simpa using h0

theorem payback_year_eq_spec (net fee : ℚ) (years : ℕ) :
    payback_year net fee years = paybackSpec net fee years := by
  cases years with
  | zero => rfl
  | succ n =>
    unfold payback_year paybackSpec
    rw [List.range'_succ]
    simp only [paybackAux, eq_self_iff_true, if_true, true_and]
    have hc : (0 : ℚ) + (net - fee / 1000000) =
        ((1 : ℕ) : ℚ) * net - fee / 1000000 := by push_cast; ring
    rw [hc]
    have hr : List.range' (1 + 1) n = List.range' 2 n := rfl
    rw [hr]
    by_cases h0 : 0 ≤ ((1 : ℕ) : ℚ) * net - fee / 1000000
    · rw [if_pos h0, paybackAux_some, List.find?_cons_of_pos]
      simpa using h0
    · rw [if_neg h0]
      have harg : ((1 : ℕ) : ℚ) * net - fee / 1000000 =
          (((2 : ℕ) : ℚ) - 1) * net - fee / 1000000 := by push_cast; ring
      rw [harg, paybackAux_none_eq_find? net fee n 2 (by omega),
        List.find?_cons_of_neg]
      simpa using h0

theorem project_head? (p : ScenarioParameters) (h : 1 ≤ p.horizonYears) :
    (project p).cumulativeSavingsByYear.head? =
      some ((project p).netAnnualSavings - p.consultingFee) := by
  rw [project_cumulative_eq]
  obtain ⟨n, hn⟩ : ∃ n, p.horizonYears = n + 1 := ⟨p.horizonYears - 1, by omega⟩
  rw [hn, List.range_succ_eq_map, List.map_cons, List.head?_cons]
  norm_num

theorem project_payback_eq_find? (p : ScenarioParameters) :
    (project p).paybackYear =
      (List.range' 1 p.horizonYears).find?
        (fun y : ℕ => decide
          (0 ≤ (y : ℚ) * (project p).netAnnualSavings - p.consultingFee / 1000000)) := by
  rw [project_paybackYear, payback_year_eq_spec]
  rfl

/-! ### Claim theorems -/

/-- C1: `paybackYear` is computed by a separate accumulation over years
1..horizonYears that adds `netAnnualSavings` each year but in year 1
subtracts `consultingFee / 1,000,000` (not the full fee); it is the first
year at which this running sum is ≥ 0, and it is `none` ("not within
horizon") exactly when no year within the horizon reaches ≥ 0. -/
theorem C1_payback_scaled_accumulation (p : ScenarioParameters) :
    (project p).paybackYear =
      paybackSpec (project p).netAnnualSavings p.consultingFee p.horizonYears ∧
    ((project p).paybackYear = none ↔
      ∀ y : ℕ, 1 ≤ y → y ≤ p.horizonYears →
        (y : ℚ) * (project p).netAnnualSavings - p.consultingFee / 1000000 < 0) := by
  refine ⟨by rw [project_paybackYear, payback_year_eq_spec], ?_⟩
  rw [project_payback_eq_find?, List.find?_eq_none]
  constructor
  · intro h y h1 h2
    have hy : y ∈ List.range' 1 p.horizonYears :=
      List.mem_range'_1.mpr ⟨h1, by omega⟩
    have hne := h y hy
    simp only [decide_eq_true_eq] at hne
    exact lt_of_not_le hne
  · intro h y hy
    rcases List.mem_range'_1.mp hy with ⟨h1, h2⟩
    simp only [decide_eq_true_eq]
    exact not_le_of_lt (h y h1 (by omega))

/-- C2 counterexample: `decreasingParams` is a valid parameter set (fee 5 %,
loss rate 0, zero consulting fee, horizon 2) whose cumulative savings
sequence is `[-5, -10]`, which is strictly decreasing — so the sequence is
not monotonically non-decreasing for every valid input. -/
theorem C2_counterexample :
    decreasingParams.Valid ∧
    (project decreasingParams).cumulativeSavingsByYear = [-5, -10] ∧
    ¬ List.Chain' (· ≤ ·) (project decreasingParams).cumulativeSavingsByYear := by
  have hcum : (project decreasingParams).cumulativeSavingsByYear = [-5, -10] := by
    rw [project_cumulative_eq, project_netAnnualSavings]
    norm_num [decreasingParams, List.range_succ]
  refine ⟨by norm_num [ScenarioParameters.Valid, decreasingParams], hcum, ?_⟩
  rw [hcum]
  norm_num [List.chain'_cons]

/-- C2 (amended): for every valid ScenarioParameters the year-1 entry of
`cumulativeSavingsByYear` equals `netAnnualSavings - consultingFee`, each
later step changes by exactly `netAnnualSavings`, and the sequence is
monotonically non-decreasing whenever `netAnnualSavings ≥ 0` (when net is
negative it decreases, as the counterexample shows). -/
theorem C2_step_structure (p : ScenarioParameters) (hp : p.Valid) :
    (project p).cumulativeSavingsByYear.head? =
      some ((project p).netAnnualSavings - p.consultingFee) ∧
    (∀ i : ℕ, i + 1 < (project p).cumulativeSavingsByYear.length →
      (project p).cumulativeSavingsByYear.getD (i + 1) 0 -
        (project p).cumulativeSavingsByYear.getD i 0 =
          (project p).netAnnualSavings) ∧
    (0 ≤ (project p).netAnnualSavings →
      List.Chain' (· ≤ ·) (project p).cumulativeSavingsByYear) := by
  obtain ⟨-, -, -, -, -, -, -, hH, -⟩ := hp
  refine ⟨project_head? p hH, ?_, ?_⟩
  · intro i hi
    rw [project_cumulative_length] at hi
    rw [project_cumulative_getD p (i + 1) hi, project_cumulative_getD p i (by omega)]
    push_cast
    ring
  · intro hnet
    rw [project_cumulative_eq, List.chain'_map]
    cases hcase : p.horizonYears with
    | zero => simp
    | succ n =>
      rw [List.chain'_range_succ]
      intro m _
      push_cast
      nlinarith [hnet]

/-- C2 witness: the amended statement instantiated at the source's Average
Estimate preset, whose validity is checked by evaluation. -/
theorem C2_step_structure_witness :
    averageParams.Valid ∧
    (project averageParams).cumulativeSavingsByYear.head? =
      some ((project averageParams).netAnnualSavings - averageParams.consultingFee) :=
  ⟨by norm_num [ScenarioParameters.Valid, averageParams],
    (C2_step_structure averageParams
      (by norm_num [ScenarioParameters.Valid, averageParams])).1⟩

/-- C3 counterexample: on the Average Estimate scenario (trapped funds
1,000,000 / 500,000 / 300,000, loss rate 15 %, fee 2.25 %, consulting fee
250,000, horizon 10) the year-10 cumulative value computed by the source is
2,045,000, not the 2,045,500 the claim states. -/
theorem C3_counterexample :
    (project averageParams).cumulativeSavingsByYear.getD 9 0 = 2045000 ∧
    (2045000 : ℚ) ≠ 2045500 := by
  constructor
  · rw [project_cumulative_getD averageParams 9 (by norm_num [averageParams]),
      project_netAnnualSavings]
    norm_num [averageParams]
  · norm_num

/-- C3 (amended): the Average Estimate scenario yields
`annualTrappedTotal = 1,800,000`, `annualCurrentLoss = 270,000`,
`annualBlockchainCost = 40,500`, `netAnnualSavings = 229,500`,
`cumulativeSavingsByYear[1] = -20,500`, `[2] = 209,000` and
`[10] = 2,045,000` (the claim's 2,045,500 corrected to 2,045,000). -/
theorem C3_average_scenario :
    (project averageParams).annualTrappedTotal = 1800000 ∧
    (project averageParams).annualCurrentLoss = 270000 ∧
    (project averageParams).annualBlockchainCost = 40500 ∧
    (project averageParams).netAnnualSavings = 229500 ∧
    (project averageParams).cumulativeSavingsByYear.getD 0 0 = -20500 ∧
    (project averageParams).cumulativeSavingsByYear.getD 1 0 = 209000 ∧
    (project averageParams).cumulativeSavingsByYear.getD 9 0 = 2045000 := by
  refine ⟨?_, ?_, ?_, ?_, ?_, ?_, ?_⟩
  · rw [project_annualTrappedTotal]
    norm_num [averageParams]
  · rw [project_annualCurrentLoss]
    norm_num [averageParams]
  · rw [project_annualBlockchainCost]
    norm_num [averageParams]
  · rw [project_netAnnualSavings]
    norm_num [averageParams]
  · rw [project_cumulative_getD averageParams 0 (by norm_num [averageParams]),
      project_netAnnualSavings]
    norm_num [averageParams]
  · rw [project_cumulative_getD averageParams 1 (by norm_num [averageParams]),
      project_netAnnualSavings]
    norm_num [averageParams]
  · rw [project_cumulative_getD averageParams 9 (by norm_num [averageParams]),
      project_netAnnualSavings]
    norm_num [averageParams]

/-- C4: when `netAnnualSavings ≤ 0` and `consultingFee > 0`, the cumulative
savings sequence is non-increasing and the separately computed payback year
is `none` ("not within horizon"): no year's running sum reaches ≥ 0. -/
theorem C4_nonpositive_net (p : ScenarioParameters)
    (hnet : (project p).netAnnualSavings ≤ 0) (hfee : 0 < p.consultingFee) :
    List.Chain' (fun a b => b ≤ a) (project p).cumulativeSavingsByYear ∧
    (project p).paybackYear = none := by
  constructor
  · rw [project_cumulative_eq, List.chain'_map]
    cases hcase : p.horizonYears with
    | zero => simp
    | succ n =>
      rw [List.chain'_range_succ]
      intro m _
      push_cast
      nlinarith [hnet]
  · rw [project_payback_eq_find?, List.find?_eq_none]
    intro y hy
    rcases List.mem_range'_1.mp hy with ⟨h1, -⟩
    simp only [decide_eq_true_eq]
    have hynn : (0 : ℚ) ≤ (y : ℚ) := Nat.cast_nonneg y
    have hmul : (y : ℚ) * (project p).netAnnualSavings ≤ 0 :=
      mul_nonpos_of_nonneg_of_nonpos hynn hnet
    have hdiv : 0 < p.consultingFee / 1000000 := by positivity
    intro habs
    linarith

/-- C4 witness: `lossyParams` (net annual savings −5, consulting fee 1000)
satisfies the hypotheses and indeed has no payback year. -/
theorem C4_nonpositive_net_witness :
    (project lossyParams).netAnnualSavings ≤ 0 ∧
    0 < lossyParams.consultingFee ∧
    (project lossyParams).paybackYear = none :=
  ⟨by rw [project_netAnnualSavings]; norm_num [lossyParams],
    by norm_num [lossyParams],
    (C4_nonpositive_net lossyParams
      (by rw [project_netAnnualSavings]; norm_num [lossyParams])
      (by norm_num [lossyParams])).2⟩

/-- C5: for every ScenarioParameters (in particular every valid one), the
cumulative savings list has length exactly `horizonYears`. -/
theorem C5_cumulative_length (p : ScenarioParameters) :
    (project p).cumulativeSavingsByYear.length = p.horizonYears := by
  rw [project_cumulative_eq]
  simp

/-- C6: for every valid ScenarioParameters, the first element of the
cumulative savings list is `netAnnualSavings - consultingFee`, where
`netAnnualSavings = annualTrappedTotal·lossRate/100 −
annualTrappedTotal·feePercent/100` and `annualTrappedTotal` is the sum of
the trapped-funds values. -/
theorem C6_first_element (p : ScenarioParameters) (hp : p.Valid) :
    (project p).cumulativeSavingsByYear.head? =
      some ((project p).netAnnualSavings - p.consultingFee) ∧
    (project p).netAnnualSavings =
      (project p).annualTrappedTotal * p.annualLossRatePercent / 100 -
        (project p).annualTrappedTotal * p.transactionFeePercent / 100 ∧
    (project p).annualTrappedTotal = (p.trappedFunds.map Prod.snd).sum := by
  obtain ⟨-, -, -, -, -, -, -, hH, -⟩ := hp
  refine ⟨project_head? p hH, ?_, rfl⟩
  rw [project_netAnnualSavings, project_annualTrappedTotal]
  ring

/-- C6 witness: the first element at the Average Estimate preset. -/
theorem C6_first_element_witness :
    averageParams.Valid ∧
    (project averageParams).netAnnualSavings =
      (project averageParams).annualTrappedTotal * averageParams.annualLossRatePercent / 100 -
        (project averageParams).annualTrappedTotal * averageParams.transactionFeePercent / 100 :=
  ⟨by norm_num [ScenarioParameters.Valid, averageParams],
    (C6_first_element averageParams
      (by norm_num [ScenarioParameters.Valid, averageParams])).2.1⟩

/-- C7: if every entity's trapped-funds amount is zero then
`netAnnualSavings = 0` whatever the loss and fee percentages, every element
of the cumulative savings list equals `-consultingFee`, and when the
consulting fee is 0 every element is 0. -/
theorem C7_zero_funds (p : ScenarioParameters)
    (hz : ∀ e ∈ p.trappedFunds, e.2 = 0) :
    (project p).netAnnualSavings = 0 ∧
    (∀ x ∈ (project p).cumulativeSavingsByYear, x = -p.consultingFee) ∧
    (p.consultingFee = 0 → ∀ x ∈ (project p).cumulativeSavingsByYear, x = 0) := by
  have hsum : (p.trappedFunds.map Prod.snd).sum = 0 := by
    apply List.sum_eq_zero
    intro x hx
    rcases List.mem_map.mp hx with ⟨e, he, rfl⟩
    exact hz e he
  have hnet : (project p).netAnnualSavings = 0 := by
    rw [project_netAnnualSavings, hsum]
    ring
  have hall : ∀ x ∈ (project p).cumulativeSavingsByYear, x = -p.consultingFee := by
    intro x hx
    rw [project_cumulative_eq] at hx
    rcases List.mem_map.mp hx with ⟨k, -, rfl⟩
    rw [hnet]
    ring
  refine ⟨hnet, hall, ?_⟩
  intro hfee x hx
  rw [hall x hx, hfee, neg_zero]

/-- C7 witness: the zero-funds parameter set has zero net savings and its
hypothesis holds by evaluation. -/
theorem C7_zero_funds_witness :
    (∀ e ∈ zeroFundsParams.trappedFunds, e.2 = 0) ∧
    (project zeroFundsParams).netAnnualSavings = 0 :=
  ⟨by simp [zeroFundsParams],
    (C7_zero_funds zeroFundsParams (by simp [zeroFundsParams])).1⟩

/-- C8: two parameter sets that differ only in the `transactionsPerYear`
mapping produce identical SavingsResults — the transactions-per-year field
never enters the savings or fee calculation. -/
theorem C8_transactions_irrelevant (txf : ℚ) (tf : List (String × ℚ))
    (loss cf : ℚ) (tx1 tx2 : List (String × ℕ)) (n : ℕ) :
    project ⟨txf, tf, loss, cf, tx1, n⟩ = project ⟨txf, tf, loss, cf, tx2, n⟩ := rfl

/-- C9: the projection is deterministic and free of hidden state — equal
inputs give equal SavingsResults. -/
theorem C9_deterministic (p q : ScenarioParameters) (h : p = q) :
    project p = project q := by rw [h]

/-- C9 witness: determinism instantiated at the Average Estimate preset. -/
theorem C9_deterministic_witness :
    project averageParams = project averageParams :=
  C9_deterministic averageParams averageParams rfl

/-- C10: on an empty trapped-funds mapping the projection still returns
normally for every fee, loss rate, consulting fee and horizon:
`annualTrappedTotal = 0`, `netAnnualSavings = 0`, and every element of the
cumulative savings list equals `-consultingFee`. -/
theorem C10_empty_funds (txf loss cf : ℚ) (tx : List (String × ℕ)) (n : ℕ) :
    (project ⟨txf, [], loss, cf, tx, n⟩).annualTrappedTotal = 0 ∧
    (project ⟨txf, [], loss, cf, tx, n⟩).netAnnualSavings = 0 ∧
    ∀ x ∈ (project ⟨txf, [], loss, cf, tx, n⟩).cumulativeSavingsByYear,
      x = -cf := by
  have hnet : (project (⟨txf, [], loss, cf, tx, n⟩ : ScenarioParameters)).netAnnualSavings = 0 := by
    rw [project_netAnnualSavings]
    simp
  refine ⟨rfl, hnet, ?_⟩
  intro x hx
  rw [project_cumulative_eq] at hx
  rcases List.mem_map.mp hx with ⟨k, -, rfl⟩
  rw [hnet]
  ring

end EtihadSavingsDashboard
